import Mathlib

/-!
# go-logger: a verification development

A shallow embedding of the `go-logger` repository:

* package `logger`   (`logger/utils.go`, `logger/config.go`, `logger/strategy.go`,
  `logger/standard_strategy.go`): the level resolver, the strategy configuration, the
  `StandardLogStrategy` and the `LogContext`;
* package `gologger` (`logger.go`): the `Logger` facade built by `NewLogger`.

Both packages configure the third-party backend `go.uber.org/zap`.  The parts of the backend
that the repository calls are modelled in the namespaces `zapcore` and `zap`: severities, the
level parser, the two default profiles, `Config.Build`, `Logger.Sugar`, caller annotation and
`Sync`.  What depends on the machine the program runs on (whether a sink can be opened or
flushed) is a parameter, `zap.Env`.

Go pointers that may be nil are `Option`s, a Go `error` result is an `Option GoError`
(`none` is the nil error), a `(value, error)` result is an `Except GoError value`, and a Go
panic is the `Except.error` of a result whose error type is `Panic`.  A method with a pointer
receiver that assigns to a field returns the updated receiver next to its result.
-/

/-- A Go `error` value, represented by its message. -/
abbrev GoError := String

/-- The value carried by a Go `panic`. -/
abbrev Panic := String

/-- One entry of a goroutine's call stack: the function and the position it is executing. -/
abbrev Frame := String

namespace zapcore

/-- The backend's severities, `zapcore.Level`, in increasing order. -/
inductive Level where
  | DebugLevel
  | InfoLevel
  | WarnLevel
  | ErrorLevel
  | DPanicLevel
  | PanicLevel
  | FatalLevel
  deriving DecidableEq, Repr

/-- The integer behind each `zapcore.Level` constant (`DebugLevel = -1`, `InfoLevel = 0`, ...). -/
def Level.toInt : Level → Int
  | .DebugLevel => -1
  | .InfoLevel => 0
  | .WarnLevel => 1
  | .ErrorLevel => 2
  | .DPanicLevel => 3
  | .PanicLevel => 4
  | .FatalLevel => 5

instance : LE Level := ⟨fun a b => a.toInt ≤ b.toInt⟩

instance (a b : Level) : Decidable (a ≤ b) := inferInstanceAs (Decidable (a.toInt ≤ b.toInt))

/-- The backend's `func (l Level) Enabled(lvl Level) bool { return lvl >= l }`. -/
def Level.Enabled (l lvl : Level) : Bool := decide (l ≤ lvl)

/-- Lower-casing of one character as Go's `unicode.ToLower` does it, restricted to what a
comparison with an ASCII word can observe: the ASCII capitals, and the two other characters
whose lower-case form is an ASCII letter (U+0130 and U+212A).  Every other character is left
as it is; its real lower-case form is not an ASCII letter either. -/
def toLowerRune (c : Char) : Char :=
  if c.toNat = 0x130 then 'i'
  else if c.toNat = 0x212A then 'k'
  else if 'A'.toNat ≤ c.toNat ∧ c.toNat ≤ 'Z'.toNat then Char.ofNat (c.toNat + 32)
  else c

/-- Go's `bytes.ToLower` on the text of a level. -/
def ToLower (text : String) : String := String.mk (text.data.map toLowerRune)

/-- The backend's `(*Level).unmarshalText`: the exact spellings it knows.  `none` is the
result `false` (no level assigned). -/
def Level.unmarshalText (text : String) : Option Level :=
  if text = "debug" ∨ text = "DEBUG" then some .DebugLevel
  else if text = "info" ∨ text = "INFO" ∨ text = "" then some .InfoLevel
  else if text = "warn" ∨ text = "WARN" then some .WarnLevel
  else if text = "error" ∨ text = "ERROR" then some .ErrorLevel
  else if text = "dpanic" ∨ text = "DPANIC" then some .DPanicLevel
  else if text = "panic" ∨ text = "PANIC" then some .PanicLevel
  else if text = "fatal" ∨ text = "FATAL" then some .FatalLevel
  else none

/-- The backend's `(*Level).UnmarshalText`: the text as written, then the text in lower case;
an error when neither is a known spelling (the message is given without Go's quoting of the
text; the repository discards it). -/
def Level.UnmarshalText (text : String) : Except GoError Level :=
  match Level.unmarshalText text with
  | some l => .ok l
  | none =>
    match Level.unmarshalText (ToLower text) with
    | some l => .ok l
    | none => .error ("unrecognized level: " ++ text)

/-- The backend's level encoders that the repository selects between. -/
inductive LevelEncoder where
  | LowercaseLevelEncoder
  | CapitalLevelEncoder
  | CapitalColorLevelEncoder
  deriving DecidableEq, Repr

/-- The backend's time encoders that the repository selects between. -/
inductive TimeEncoder where
  | EpochTimeEncoder
  | ISO8601TimeEncoder
  deriving DecidableEq, Repr

/-- The fields of `zapcore.EncoderConfig` that the repository reads or assigns. -/
structure EncoderConfig where
  TimeKey : String
  EncodeLevel : LevelEncoder
  EncodeTime : TimeEncoder
  deriving DecidableEq, Repr

end zapcore

namespace zap

open zapcore

/-- What the machine decides: whether the sink named by a path can be opened, and whether it
can be flushed (`none` is success).  The standard streams are handled by `openPath`. -/
structure Env where
  openSink : String → Option GoError
  syncSink : String → Option GoError

/-- The backend's `SamplingConfig`. -/
structure SamplingConfig where
  Initial : Nat
  Thereafter : Nat
  deriving DecidableEq, Repr

/-- The backend's `zap.Config`, without `InitialFields` (never set by the repository).  The
`Level` field is the level held by the `AtomicLevel`. -/
structure Config where
  Level : Level
  Development : Bool
  DisableCaller : Bool
  DisableStacktrace : Bool
  Sampling : Option SamplingConfig
  Encoding : String
  EncoderConfig : EncoderConfig
  OutputPaths : List String
  ErrorOutputPaths : List String
  deriving DecidableEq, Repr

/-- The backend's `NewProductionEncoderConfig`. -/
def NewProductionEncoderConfig : EncoderConfig :=
  { TimeKey := "ts", EncodeLevel := .LowercaseLevelEncoder, EncodeTime := .EpochTimeEncoder }

/-- The backend's `NewDevelopmentEncoderConfig`. -/
def NewDevelopmentEncoderConfig : EncoderConfig :=
  { TimeKey := "T", EncodeLevel := .CapitalLevelEncoder, EncodeTime := .ISO8601TimeEncoder }

/-- The backend's `NewProductionConfig`: the production default profile. -/
def NewProductionConfig : Config :=
  { Level := .InfoLevel
    Development := false
    DisableCaller := false
    DisableStacktrace := false
    Sampling := some { Initial := 100, Thereafter := 100 }
    Encoding := "json"
    EncoderConfig := NewProductionEncoderConfig
    OutputPaths := ["stderr"]
    ErrorOutputPaths := ["stderr"] }

/-- The backend's `NewDevelopmentConfig`: the development default profile. -/
def NewDevelopmentConfig : Config :=
  { Level := .DebugLevel
    Development := true
    DisableCaller := false
    DisableStacktrace := false
    Sampling := none
    Encoding := "console"
    EncoderConfig := NewDevelopmentEncoderConfig
    OutputPaths := ["stderr"]
    ErrorOutputPaths := ["stderr"] }

/-- The level of a fresh `zap.NewAtomicLevel()`: info. -/
def NewAtomicLevel : Level := .InfoLevel

/-- The backend's `(*AtomicLevel).UnmarshalText`: on success the atomic level holds the parsed
level, on failure it is left as it was and the error is returned. -/
def AtomicLevel.UnmarshalText (lvl : Level) (text : String) : Level × Option GoError :=
  match Level.UnmarshalText text with
  | .ok l => (l, none)
  | .error err => (lvl, some err)

/-- The options of `Build` that the repository passes. -/
inductive LoggerOption where
  | AddCaller
  | AddCallerSkip (skip : Nat)
  deriving DecidableEq, Repr

/-- The backend's `*zap.Logger`, as the configuration it was built with: the level of its
core, its encoder, its sinks, and the settings of the caller annotation. -/
structure Logger where
  level : Level
  encoding : String
  encoderConfig : EncoderConfig
  outputPaths : List String
  errorOutputPaths : List String
  sampling : Option SamplingConfig
  development : Bool
  addCaller : Bool
  addStack : Option Level
  callerSkip : Nat
  deriving DecidableEq, Repr

/-- Joining of errors as `multierr` does it: no error when there is none, otherwise the
messages separated by a semicolon. -/
def combineErrors (errs : List GoError) : Option GoError :=
  if errs.isEmpty then none else some ("; ".intercalate errs)

/-- Opening of one sink: the names `stdout` and `stderr` are the process's standard streams
and always open; any other path is up to the machine. -/
def openPath (env : Env) (path : String) : Option GoError :=
  if path = "stdout" ∨ path = "stderr" then none else env.openSink path

/-- The backend's `zap.Open`: opens every path and reports the errors of all that failed. -/
def Open (env : Env) (paths : List String) : Option GoError :=
  combineErrors (paths.filterMap (openPath env))

/-- The backend's `Config.buildEncoder`: the time encoder is always present in this model, so
what can fail is the name of the encoding. -/
def Config.buildEncoder (cfg : Config) : Option GoError :=
  if cfg.Encoding = "" then some "no encoder name specified"
  else if cfg.Encoding = "console" ∨ cfg.Encoding = "json" then none
  else some ("no encoder registered for name " ++ cfg.Encoding)

/-- The backend's `Config.openSinks`: the output sinks, then the error sinks. -/
def Config.openSinks (env : Env) (cfg : Config) : Option GoError :=
  match Open env cfg.OutputPaths with
  | some err => some err
  | none => Open env cfg.ErrorOutputPaths

/-- Application of one option to a logger. -/
def LoggerOption.apply (log : Logger) : LoggerOption → Logger
  | .AddCaller => { log with addCaller := true }
  | .AddCallerSkip skip => { log with callerSkip := log.callerSkip + skip }

/-- The backend's `Config.Build`: builds the encoder and opens the sinks, either of which may
fail; then makes a logger with the options the configuration implies and the ones passed. -/
def Config.Build (env : Env) (cfg : Config) (opts : List LoggerOption) : Except GoError Logger :=
  match cfg.buildEncoder with
  | some err => .error err
  | none =>
    match cfg.openSinks env with
    | some err => .error err
    | none =>
      let log : Logger :=
        { level := cfg.Level
          encoding := cfg.Encoding
          encoderConfig := cfg.EncoderConfig
          outputPaths := cfg.OutputPaths
          errorOutputPaths := cfg.ErrorOutputPaths
          sampling := cfg.Sampling
          development := cfg.Development
          addCaller := !cfg.DisableCaller
          addStack :=
            if cfg.DisableStacktrace then none
            else some (if cfg.Development then Level.WarnLevel else Level.ErrorLevel)
          callerSkip := 0 }
      .ok (opts.foldl LoggerOption.apply log)

/-- The backend's `Logger.Core().Enabled`: the level of the core decides. -/
def Logger.Enabled (log : Logger) (lvl : Level) : Bool := log.level.Enabled lvl

/-- The backend's `*zap.SugaredLogger`: a handle on a base logger. -/
structure SugaredLogger where
  base : Logger
  deriving DecidableEq, Repr

/-- The backend's `Logger.Sugar`: the sugared handle skips the two frames of its own methods. -/
def Logger.Sugar (log : Logger) : SugaredLogger :=
  { base := { log with callerSkip := log.callerSkip + 2 } }

/-- The backend's `SugaredLogger.Desugar`: the base logger without the two frames of `Sugar`. -/
def SugaredLogger.Desugar (s : SugaredLogger) : Logger :=
  { s.base with callerSkip := s.base.callerSkip - 2 }

/-- A record handed to the core: its severity and the caller annotation, if one was found. -/
structure Entry where
  Level : Level
  Caller : Option Frame
  deriving DecidableEq, Repr

/-- The number of frames `Logger.check` skips for itself and for the method that called it. -/
def callerSkipOffset : Nat := 2

/-- The backend's `Logger.check`, given the call stack at the capture, innermost frame first
(the frame of `check` itself is the head): no record when the core does not enable the
level; otherwise the record, annotated (when `addCaller` is set) with the frame found after
skipping `callerSkip + callerSkipOffset` frames. -/
def Logger.check (log : Logger) (lvl : Level) (stack : List Frame) : Option Entry :=
  if log.Enabled lvl then
    some { Level := lvl
           Caller := if log.addCaller then stack.get? (log.callerSkip + callerSkipOffset) else none }
  else none

/-- The backend's `Logger.Check`, called with the stack of its caller. -/
def Logger.Check (log : Logger) (lvl : Level) (stack : List Frame) : Option Entry :=
  log.check lvl ("zap.(*Logger).check" :: "zap.(*Logger).Check" :: stack)

/-- The backend's `SugaredLogger.log`, called with the stack of its caller. -/
def SugaredLogger.log (s : SugaredLogger) (lvl : Level) (stack : List Frame) : Option Entry :=
  s.base.Check lvl ("zap.(*SugaredLogger).log" :: stack)

/-- The backend's `SugaredLogger.Debug`, called with the stack of its caller, the call site
first. -/
def SugaredLogger.Debug (s : SugaredLogger) (stack : List Frame) : Option Entry :=
  s.log .DebugLevel ("zap.(*SugaredLogger).Debug" :: stack)

/-- The backend's `SugaredLogger.Info`. -/
def SugaredLogger.Info (s : SugaredLogger) (stack : List Frame) : Option Entry :=
  s.log .InfoLevel ("zap.(*SugaredLogger).Info" :: stack)

/-- The backend's `SugaredLogger.Warn`. -/
def SugaredLogger.Warn (s : SugaredLogger) (stack : List Frame) : Option Entry :=
  s.log .WarnLevel ("zap.(*SugaredLogger).Warn" :: stack)

/-- The backend's `SugaredLogger.Error`. -/
def SugaredLogger.Error (s : SugaredLogger) (stack : List Frame) : Option Entry :=
  s.log .ErrorLevel ("zap.(*SugaredLogger).Error" :: stack)

/-- The backend's `Logger.Sync`: flushes the output sinks of the core and reports the errors. -/
def Logger.Sync (env : Env) (log : Logger) : Option GoError :=
  combineErrors (log.outputPaths.filterMap env.syncSink)

/-- The backend's `SugaredLogger.Sync`. -/
def SugaredLogger.Sync (env : Env) (s : SugaredLogger) : Option GoError :=
  s.base.Sync env

end zap

namespace logger

open zapcore

/-- The struct `StandardLogConfig` of `logger/config.go`. -/
structure StandardLogConfig where
  OutputPaths : List String
  ErrorOutputPaths : List String
  deriving DecidableEq, Repr

/-- The struct `Config` of `logger/config.go`; the pointer `StandardLogConfig` may be nil. -/
structure Config where
  Environment : String
  Level : String
  StandardLogConfig : Option StandardLogConfig
  deriving DecidableEq, Repr

/-- The map literal `logLevelMapping` of `getLogLevel`. -/
def logLevelMapping : List (String × Level) :=
  [ ("debug", .DebugLevel),
    ("info", .InfoLevel),
    ("warn", .WarnLevel),
    ("error", .ErrorLevel),
    ("fatal", .FatalLevel) ]

/-- The function `getLogLevel` of `logger/utils.go`: the level the map holds for the name, and
info when the map has no such key. -/
def getLogLevel (level : String) : Level :=
  match logLevelMapping.lookup level with
  | some val => val
  | none => .InfoLevel

/-- The struct `StandardLogStrategy`; the pointer `logger` is nil until `Init` sets it. -/
structure StandardLogStrategy where
  logger : Option zap.SugaredLogger
  deriving DecidableEq, Repr

/-- The backend configuration that `StandardLogStrategy.Init` assembles, for a configuration
whose `StandardLogConfig` is the non-nil `slc`: the profile chosen by the environment, with
its level and its two sink lists overwritten. -/
def StandardLogStrategy.Init.zapConfig (cfg : Config) (slc : StandardLogConfig) : zap.Config :=
  let zapConfig : zap.Config :=
    if cfg.Environment = "production" then zap.NewProductionConfig
    else zap.NewDevelopmentConfig
  let level := getLogLevel cfg.Level
  let zapConfig := { zapConfig with Level := level }
  let zapConfig := { zapConfig with OutputPaths := slc.OutputPaths }
  { zapConfig with ErrorOutputPaths := slc.ErrorOutputPaths }

/-- The method `StandardLogStrategy.Init`: the returned error and the strategy afterwards. -/
def StandardLogStrategy.Init (env : zap.Env) (s : StandardLogStrategy) (cfg : Config) :
    Option GoError × StandardLogStrategy :=
  match cfg.StandardLogConfig with
  | none => (none, s)
  | some slc =>
    match (StandardLogStrategy.Init.zapConfig cfg slc).Build env [] with
    | .error _ => (none, s)
    | .ok log => (none, { s with logger := some log.Sugar })

/-- The method `StandardLogStrategy.GetLogger`: panics when no logger is held. -/
def StandardLogStrategy.GetLogger (s : StandardLogStrategy) : Except Panic zap.SugaredLogger :=
  match s.logger with
  | none => .error "Logger is not initialized. Call init first."
  | some l => .ok l

/-- The method `StandardLogStrategy.Sync`. -/
def StandardLogStrategy.Sync (env : zap.Env) (s : StandardLogStrategy) : Option GoError :=
  match s.logger with
  | some l => l.Sync env
  | none => none

/-- A non-nil value of the interface `LogStrategy`: an object (its state) with the three
methods of the interface.  Each method returns its result and the object afterwards, since an
implementation may assign to its fields. -/
structure LogStrategy where
  State : Type
  self : State
  init : State → Config → Option GoError × State
  getLogger : State → Except Panic zap.SugaredLogger × State
  sync : State → Option GoError × State

/-- The call `strategy.Init(cfg)` through the interface. -/
def LogStrategy.Init (s : LogStrategy) (cfg : Config) : Option GoError × LogStrategy :=
  ((s.init s.self cfg).1, { s with self := (s.init s.self cfg).2 })

/-- The call `strategy.GetLogger()` through the interface. -/
def LogStrategy.GetLogger (s : LogStrategy) : Except Panic zap.SugaredLogger × LogStrategy :=
  ((s.getLogger s.self).1, { s with self := (s.getLogger s.self).2 })

/-- The call `strategy.Sync()` through the interface. -/
def LogStrategy.Sync (s : LogStrategy) : Option GoError × LogStrategy :=
  ((s.sync s.self).1, { s with self := (s.sync s.self).2 })

/-- A `*StandardLogStrategy` as a value of the interface `LogStrategy`. -/
def StandardLogStrategy.toLogStrategy (env : zap.Env) (s : StandardLogStrategy) : LogStrategy :=
  { State := StandardLogStrategy
    self := s
    init := fun st cfg => st.Init env cfg
    getLogger := fun st => (st.GetLogger, st)
    sync := fun st => (st.Sync env, st) }

/-- The struct `LogContext`; the interface value `strategy` is nil until `SetStrategy`. -/
structure LogContext where
  strategy : Option LogStrategy

/-- The method `LogContext.SetStrategy`. -/
def LogContext.SetStrategy (lc : LogContext) (strategy : Option LogStrategy) : LogContext :=
  { lc with strategy := strategy }

/-- The method `LogContext.Init`: the returned error and the context afterwards. -/
def LogContext.Init (lc : LogContext) (cfg : Config) : Option GoError × LogContext :=
  match lc.strategy with
  | none => (none, lc)
  | some strategy => ((strategy.Init cfg).1, { lc with strategy := some (strategy.Init cfg).2 })

/-- The method `LogContext.GetLogger`: panics when no strategy is set. -/
def LogContext.GetLogger (lc : LogContext) : Except Panic zap.SugaredLogger × LogContext :=
  match lc.strategy with
  | none => (.error "Logger strategy is not set", lc)
  | some strategy =>
    ((strategy.GetLogger).1, { lc with strategy := some (strategy.GetLogger).2 })

/-- The method `LogContext.Sync`. -/
def LogContext.Sync (lc : LogContext) : Option GoError × LogContext :=
  match lc.strategy with
  | some strategy => ((strategy.Sync).1, { lc with strategy := some (strategy.Sync).2 })
  | none => (none, lc)

end logger

namespace gologger

open zapcore

/-- The struct `Config` of `logger.go`.  A nil slice and an empty slice are both `[]`. -/
structure Config where
  Level : String
  Encoding : String
  Outputs : List String
  ErrOutputs : List String
  deriving DecidableEq, Repr

/-- The struct `zapLoggerImpl`: the facade around the sugared handle. -/
structure zapLoggerImpl where
  SugaredLogger : zap.SugaredLogger
  deriving DecidableEq, Repr

/-- The backend configuration that `NewLogger` assembles before it calls `Build`
(the `if cfg == nil ... else ...` of `NewLogger`). -/
def NewLogger.zapCfg (cfg : Option Config) : zap.Config :=
  match cfg with
  | none =>
    let zapCfg := zap.NewDevelopmentConfig
    { zapCfg with
      EncoderConfig := { zapCfg.EncoderConfig with EncodeLevel := .CapitalColorLevelEncoder } }
  | some cfg =>
    let level := zap.NewAtomicLevel
    let level :=
      match zap.AtomicLevel.UnmarshalText level cfg.Level with
      | (_, some _) => Level.InfoLevel
      | (level, none) => level
    let encoding := if cfg.Encoding = "json" then "json" else "console"
    let outputs := if cfg.Outputs.length > 0 then cfg.Outputs else ["stdout"]
    let errOutputs := if cfg.ErrOutputs.length > 0 then cfg.ErrOutputs else ["stderr"]
    let encoderCfg : EncoderConfig :=
      if encoding = "console" then
        { zap.NewDevelopmentEncoderConfig with
          EncodeLevel := .CapitalColorLevelEncoder
          EncodeTime := .ISO8601TimeEncoder }
      else
        { zap.NewProductionEncoderConfig with
          TimeKey := "timestamp"
          EncodeTime := .ISO8601TimeEncoder }
    { Level := level
      Development := decide (encoding = "console")
      DisableCaller := false
      DisableStacktrace := false
      Sampling := none
      Encoding := encoding
      EncoderConfig := encoderCfg
      OutputPaths := outputs
      ErrorOutputPaths := errOutputs }

/-- The function `NewLogger`: builds the backend logger from the assembled configuration with
the options `AddCaller` and `AddCallerSkip(2)`, and wraps its sugared handle. -/
def NewLogger (env : zap.Env) (cfg : Option Config) : Except GoError zapLoggerImpl :=
  match (NewLogger.zapCfg cfg).Build env [.AddCaller, .AddCallerSkip 2] with
  | .error err => .error err
  | .ok loggerCore =>
    let sugar := loggerCore.Sugar
    .ok { SugaredLogger := sugar }

/-- The function `NewDefaultLogger`. -/
def NewDefaultLogger (env : zap.Env) : Except GoError zapLoggerImpl :=
  NewLogger env none

/-- The method `zapLoggerImpl.Debug`, called with the stack of its caller, the call site
first: the record handed to the core, if any. -/
def zapLoggerImpl.Debug (l : zapLoggerImpl) (stack : List Frame) : Option zap.Entry :=
  l.SugaredLogger.Debug ("gologger.(*zapLoggerImpl).Debug" :: stack)

/-- The method `zapLoggerImpl.Info`. -/
def zapLoggerImpl.Info (l : zapLoggerImpl) (stack : List Frame) : Option zap.Entry :=
  l.SugaredLogger.Info ("gologger.(*zapLoggerImpl).Info" :: stack)

/-- The method `zapLoggerImpl.Warn`. -/
def zapLoggerImpl.Warn (l : zapLoggerImpl) (stack : List Frame) : Option zap.Entry :=
  l.SugaredLogger.Warn ("gologger.(*zapLoggerImpl).Warn" :: stack)

/-- The method `zapLoggerImpl.Error`. -/
def zapLoggerImpl.Error (l : zapLoggerImpl) (stack : List Frame) : Option zap.Entry :=
  l.SugaredLogger.Error ("gologger.(*zapLoggerImpl).Error" :: stack)

/-- The method `zapLoggerImpl.Sync`. -/
def zapLoggerImpl.Sync (env : zap.Env) (l : zapLoggerImpl) : Option GoError :=
  l.SugaredLogger.Sync env

/-- The severities a facade logger enables, as the tests read them:
`impl.SugaredLogger.Desugar().Core().Enabled(lvl)`. -/
def zapLoggerImpl.Enabled (l : zapLoggerImpl) (lvl : Level) : Bool :=
  l.SugaredLogger.Desugar.Enabled lvl

end gologger

/-! ## Concrete machines and inputs used to evaluate the definitions -/

/-- A machine on which every sink opens and flushes without error. -/
def zap.Env.allOpen : zap.Env :=
  { openSink := fun _ => none, syncSink := fun _ => none }

/-- A machine on which only the standard streams open: every other path is refused. -/
def zap.Env.noFiles : zap.Env :=
  { openSink := fun path => some ("open sink " ++ path ++ ": permission denied")
    syncSink := fun _ => none }

/-- A call stack at a call of a facade method, the call site first: `main.handle` logs at
line 12 and was called by `main.main` at line 30. -/
def exampleStack : List Frame :=
  ["main.handle (main.go:12)", "main.main (main.go:30)", "runtime.main (proc.go:267)"]

/-- The configuration of `examples/standard_log_file/main.go`. -/
def exampleConfig : logger.Config :=
  { Environment := "development"
    Level := "info"
    StandardLogConfig := some { OutputPaths := ["20241223.log"], ErrorOutputPaths := ["stderr"] } }

/-! ## Theorems -/

section Theorems

open zapcore zap logger gologger

/-- A logger that `Build` returns carries the level, the sinks and the encoding of the
configuration, and the caller settings that the options add up to. -/
theorem Build_ok (env : zap.Env) (cfg : zap.Config) (opts : List LoggerOption) (log : zap.Logger)
    (h : cfg.Build env opts = .ok log) :
    cfg.buildEncoder = none ∧ cfg.openSinks env = none ∧
    log = opts.foldl LoggerOption.apply
      { level := cfg.Level
        encoding := cfg.Encoding
        encoderConfig := cfg.EncoderConfig
        outputPaths := cfg.OutputPaths
        errorOutputPaths := cfg.ErrorOutputPaths
        sampling := cfg.Sampling
        development := cfg.Development
        addCaller := !cfg.DisableCaller
        addStack :=
          if cfg.DisableStacktrace then none
          else some (if cfg.Development then Level.WarnLevel else Level.ErrorLevel)
        callerSkip := 0 } := by
  unfold zap.Config.Build at h
  cases hE : cfg.buildEncoder with
  | some err => rw [hE] at h; cases h
  | none =>
    cases hS : cfg.openSinks env with
    | some err => rw [hE, hS] at h; cases h
    | none =>
      rw [hE, hS] at h
      injection h with h
      exact ⟨rfl, rfl, h.symm⟩

/-- The facade that `NewLogger` returns wraps the sugared handle of the logger built from the
assembled configuration. -/
theorem NewLogger_ok (env : zap.Env) (cfg : Option gologger.Config) (l : zapLoggerImpl)
    (h : NewLogger env cfg = .ok l) :
    ∃ log, (NewLogger.zapCfg cfg).Build env [.AddCaller, .AddCallerSkip 2] = .ok log ∧
      l = { SugaredLogger := log.Sugar } := by
  unfold NewLogger at h
  split at h
  · cases h
  · rename_i log hb
    injection h with h
    exact ⟨log, hb, h.symm⟩

/-- The severities a facade logger enables are those at or above the level of the assembled
configuration. -/
theorem NewLogger_Enabled (env : zap.Env) (cfg : Option gologger.Config) (l : zapLoggerImpl)
    (h : NewLogger env cfg = .ok l) (v : Level) :
    l.Enabled v = (NewLogger.zapCfg cfg).Level.Enabled v := by
  obtain ⟨log, hb, rfl⟩ := NewLogger_ok env cfg l h
  obtain ⟨-, -, rfl⟩ := Build_ok env _ _ log hb
  rfl

/-- Opening the standard streams never fails. -/
theorem Open_std (env : zap.Env) : Open env ["stdout"] = none ∧ Open env ["stderr"] = none := by
  constructor <;> simp [Open, openPath, combineErrors]

/-- The encoding that `NewLogger` assembles is always one the backend knows. -/
theorem zapCfg_buildEncoder (cfg : Option gologger.Config) :
    (NewLogger.zapCfg cfg).buildEncoder = none := by
  cases cfg with
  | none => rfl
  | some cfg =>
    by_cases h : cfg.Encoding = "json" <;> simp [NewLogger.zapCfg, zap.Config.buildEncoder, h]

/-- The level that `NewLogger` assembles from a configuration: the parsed level, and info
when the backend's parser returns an error. -/
theorem zapCfg_Level (cfg : gologger.Config) :
    (NewLogger.zapCfg (some cfg)).Level =
      match Level.UnmarshalText cfg.Level with
      | .ok lvl => lvl
      | .error _ => Level.InfoLevel := by
  unfold NewLogger.zapCfg
  simp only [zap.AtomicLevel.UnmarshalText]
  cases Level.UnmarshalText cfg.Level <;> rfl

/-- The sinks that `NewLogger` assembles from a configuration. -/
theorem zapCfg_sinks (cfg : gologger.Config) :
    (NewLogger.zapCfg (some cfg)).OutputPaths
        = (if cfg.Outputs = [] then ["stdout"] else cfg.Outputs) ∧
    (NewLogger.zapCfg (some cfg)).ErrorOutputPaths
        = (if cfg.ErrOutputs = [] then ["stderr"] else cfg.ErrOutputs) := by
  unfold NewLogger.zapCfg
  constructor
  · cases h : cfg.Outputs <;> simp [h]
  · cases h : cfg.ErrOutputs <;> simp [h]

/-- With no sinks configured, `NewLogger` succeeds on every machine. -/
theorem NewLogger_default_sinks_ok (env : zap.Env) (cfg : gologger.Config)
    (h1 : cfg.Outputs = []) (h2 : cfg.ErrOutputs = []) :
    ∃ l, NewLogger env (some cfg) = .ok l := by
  have hs := zapCfg_sinks cfg
  rw [if_pos h1, if_pos h2] at hs
  have hopen : (NewLogger.zapCfg (some cfg)).openSinks env = none := by
    simp [zap.Config.openSinks, hs.1, hs.2, (Open_std env).1, (Open_std env).2]
  simp [NewLogger, zap.Config.Build, zapCfg_buildEncoder, hopen]

/-- The five names of `getLogLevel` are parsed by the backend to the same levels. -/
theorem UnmarshalText_mapping (name : String) (lvl : Level)
    (h : (name, lvl) ∈ [("debug", Level.DebugLevel), ("info", Level.InfoLevel),
      ("warn", Level.WarnLevel), ("error", Level.ErrorLevel), ("fatal", Level.FatalLevel)]) :
    Level.UnmarshalText name = .ok lvl := by
  simp only [List.mem_cons, List.mem_singleton, Prod.mk.injEq, List.not_mem_nil, or_false] at h
  rcases h with ⟨rfl, rfl⟩ | ⟨rfl, rfl⟩ | ⟨rfl, rfl⟩ | ⟨rfl, rfl⟩ | ⟨rfl, rfl⟩ <;> rfl

/-- Names outside the map of `getLogLevel` resolve to info. -/
theorem getLogLevel_other (s : String) (h : s ∉ ["debug", "info", "warn", "error", "fatal"]) :
    getLogLevel s = Level.InfoLevel := by
  simp only [List.mem_cons, List.mem_singleton, not_or, List.not_mem_nil, or_false] at h
  obtain ⟨h1, h2, h3, h4, h5⟩ := h
  have e1 : (s == "debug") = false := beq_eq_false_iff_ne.mpr h1
  have e2 : (s == "info") = false := beq_eq_false_iff_ne.mpr h2
  have e3 : (s == "warn") = false := beq_eq_false_iff_ne.mpr h3
  have e4 : (s == "error") = false := beq_eq_false_iff_ne.mpr h4
  have e5 : (s == "fatal") = false := beq_eq_false_iff_ne.mpr h5
  simp only [getLogLevel, logLevelMapping, List.lookup, e1, e2, e3, e4, e5]

/-- C1: `getLogLevel` is a total function; it returns Debug, Info, Warn, Error, Fatal on
exactly the names "debug", "info", "warn", "error", "fatal", and Info on every other string,
among them the empty string, "panic" and "dpanic". -/
theorem C1_getLogLevel_resolves (s : String) :
    (s = "debug" → getLogLevel s = Level.DebugLevel) ∧
    (s = "info" → getLogLevel s = Level.InfoLevel) ∧
    (s = "warn" → getLogLevel s = Level.WarnLevel) ∧
    (s = "error" → getLogLevel s = Level.ErrorLevel) ∧
    (s = "fatal" → getLogLevel s = Level.FatalLevel) ∧
    (s ∉ ["debug", "info", "warn", "error", "fatal"] → getLogLevel s = Level.InfoLevel) ∧
    getLogLevel "" = Level.InfoLevel ∧
    getLogLevel "panic" = Level.InfoLevel ∧
    getLogLevel "dpanic" = Level.InfoLevel := by
  refine ⟨?_, ?_, ?_, ?_, ?_, getLogLevel_other s, ?_, ?_, ?_⟩
  · rintro rfl; rfl
  · rintro rfl; rfl
  · rintro rfl; rfl
  · rintro rfl; rfl
  · rintro rfl; rfl
  · exact getLogLevel_other _ (by decide)
  · exact getLogLevel_other _ (by decide)
  · exact getLogLevel_other _ (by decide)

/-- C1 at the inputs "warn" and "invalid-level". -/
theorem C1_getLogLevel_resolves_witness :
    "warn" = "warn" ∧ getLogLevel "warn" = Level.WarnLevel ∧
    "invalid-level" ∉ ["debug", "info", "warn", "error", "fatal"] ∧
    getLogLevel "invalid-level" = Level.InfoLevel :=
  ⟨rfl, (C1_getLogLevel_resolves "warn").2.2.1 rfl, by decide,
    (C1_getLogLevel_resolves "invalid-level").2.2.2.2.2.1 (by decide)⟩

/-- C2, as stated, fails: "panic" is none of the five names, the backend's parser accepts it,
and the logger that `NewLogger` builds for it does not enable Info, whereas the one built for
"info" does. -/
theorem C2_counterexample_panic :
    "panic" ∉ ["debug", "info", "warn", "error", "fatal"] ∧
    (∃ l, NewLogger zap.Env.allOpen
        (some { Level := "panic", Encoding := "", Outputs := [], ErrOutputs := [] }) = .ok l ∧
      l.Enabled Level.InfoLevel = false) ∧
    (∃ l, NewLogger zap.Env.allOpen
        (some { Level := "info", Encoding := "", Outputs := [], ErrOutputs := [] }) = .ok l ∧
      l.Enabled Level.InfoLevel = true) ∧
    getLogLevel "panic" = Level.InfoLevel :=
  ⟨by decide, ⟨_, rfl, rfl⟩, ⟨_, rfl, rfl⟩, getLogLevel_other _ (by decide)⟩

/-- C2, amended: for every string that the backend's level parser rejects or parses as info
(the empty string, "INFO" and "invalid-level" among them), `NewLogger` returns what it returns
for the level "info"; with no sinks configured it succeeds; the logger enables exactly Info
and above, so Debug is disabled; and the level of the facade is the one `getLogLevel`
resolves.  For a string that the parser parses as any level, the logger enables exactly that
level and above; when that level is not info (as for "panic", "dpanic", "DEBUG", "Warn"), the
enabled severities are not those of "info". -/
theorem C2_unrecognized_level_resolution (env : zap.Env) (cfg : gologger.Config) :
    ((Level.UnmarshalText cfg.Level = .ok Level.InfoLevel ∨
        ∀ lvl, Level.UnmarshalText cfg.Level ≠ .ok lvl) →
      NewLogger env (some cfg) = NewLogger env (some { cfg with Level := "info" }) ∧
      (cfg.Outputs = [] → cfg.ErrOutputs = [] → ∃ l, NewLogger env (some cfg) = .ok l) ∧
      (∀ l, NewLogger env (some cfg) = .ok l →
        (∀ v, l.Enabled v = true ↔ Level.InfoLevel ≤ v) ∧ l.Enabled Level.DebugLevel = false) ∧
      (NewLogger.zapCfg (some cfg)).Level = getLogLevel cfg.Level) ∧
    (∀ lvl, Level.UnmarshalText cfg.Level = .ok lvl →
      ∀ l, NewLogger env (some cfg) = .ok l → ∀ v, (l.Enabled v = true ↔ lvl ≤ v)) ∧
    (∀ lvl, Level.UnmarshalText cfg.Level = .ok lvl → lvl ≠ Level.InfoLevel →
      ∀ l, NewLogger env (some cfg) = .ok l →
        ¬ ∀ v, (l.Enabled v = true ↔ Level.InfoLevel ≤ v)) ∧
    (Level.UnmarshalText "" = .ok Level.InfoLevel ∧
      Level.UnmarshalText "INFO" = .ok Level.InfoLevel ∧
      Level.UnmarshalText "Info" = .ok Level.InfoLevel ∧
      Level.UnmarshalText "DEBUG" = .ok Level.DebugLevel ∧
      Level.UnmarshalText "Debug" = .ok Level.DebugLevel ∧
      Level.UnmarshalText "WARN" = .ok Level.WarnLevel ∧
      Level.UnmarshalText "Warn" = .ok Level.WarnLevel ∧
      Level.UnmarshalText "Error" = .ok Level.ErrorLevel ∧
      Level.UnmarshalText "dpanic" = .ok Level.DPanicLevel ∧
      Level.UnmarshalText "DPanic" = .ok Level.DPanicLevel ∧
      Level.UnmarshalText "panic" = .ok Level.PanicLevel ∧
      Level.UnmarshalText "Panic" = .ok Level.PanicLevel ∧
      Level.UnmarshalText "FATAL" = .ok Level.FatalLevel ∧
      Level.UnmarshalText "Fatal" = .ok Level.FatalLevel ∧
      (∀ lvl, Level.UnmarshalText "invalid-level" ≠ .ok lvl) ∧
      (∀ lvl, Level.UnmarshalText "trace" ≠ .ok lvl)) := by
  have hB : ∀ lvl, Level.UnmarshalText cfg.Level = .ok lvl →
      ∀ l, NewLogger env (some cfg) = .ok l → ∀ v, (l.Enabled v = true ↔ lvl ≤ v) := by
    intro lvl hp l hl v
    rw [NewLogger_Enabled env (some cfg) l hl, zapCfg_Level, hp]
    simp [Level.Enabled]
  refine ⟨?_, hB, ?_, ?_⟩
  · intro h
    have hlevel : (NewLogger.zapCfg (some cfg)).Level = Level.InfoLevel := by
      rw [zapCfg_Level]
      rcases h with h | h
      · rw [h]
      · cases hp : Level.UnmarshalText cfg.Level with
        | ok lvl => exact absurd hp (h lvl)
        | error err => rfl
    have hcfg :
        NewLogger.zapCfg (some cfg) = NewLogger.zapCfg (some { cfg with Level := "info" }) := by
      have h2 : (NewLogger.zapCfg (some { cfg with Level := "info" })).Level
          = Level.InfoLevel := by
        rw [zapCfg_Level]; rfl
      have e1 := hlevel
      have e2 := h2
      unfold NewLogger.zapCfg at e1 e2 ⊢
      simp only at e1 e2 ⊢
      rw [e1, e2]
    have hnot : ∀ name lvl, cfg.Level = name → Level.UnmarshalText name = .ok lvl →
        lvl ≠ Level.InfoLevel → False := by
      intro name lvl e hp hne
      rw [← e] at hp
      rcases h with h | h
      · rw [h] at hp
        injection hp with hp
        exact hne hp.symm
      · exact h lvl hp
    have hget : getLogLevel cfg.Level = Level.InfoLevel := by
      by_cases hmem : cfg.Level ∈ ["debug", "info", "warn", "error", "fatal"]
      · simp only [List.mem_cons, List.mem_singleton, List.not_mem_nil, or_false] at hmem
        rcases hmem with e | e | e | e | e
        · exact (hnot "debug" Level.DebugLevel e rfl (by decide)).elim
        · rw [e]; rfl
        · exact (hnot "warn" Level.WarnLevel e rfl (by decide)).elim
        · exact (hnot "error" Level.ErrorLevel e rfl (by decide)).elim
        · exact (hnot "fatal" Level.FatalLevel e rfl (by decide)).elim
      · exact getLogLevel_other _ hmem
    refine ⟨?_, NewLogger_default_sinks_ok env cfg, ?_, ?_⟩
    · unfold NewLogger
      rw [hcfg]
    · intro l hl
      have hE := NewLogger_Enabled env (some cfg) l hl
      constructor
      · intro v
        rw [hE, hlevel]
        simp [Level.Enabled]
      · rw [hE, hlevel]
        rfl
    · rw [hlevel, hget]
  · intro lvl hp hne l hl hall
    have hv := hB lvl hp l hl
    cases lvl with
    | InfoLevel => exact hne rfl
    | DebugLevel =>
      have h1 := (hv Level.DebugLevel).mpr (by decide)
      exact absurd ((hall Level.DebugLevel).mp h1) (by decide)
    | WarnLevel =>
      have h1 := (hall Level.InfoLevel).mpr (by decide)
      exact absurd ((hv Level.InfoLevel).mp h1) (by decide)
    | ErrorLevel =>
      have h1 := (hall Level.InfoLevel).mpr (by decide)
      exact absurd ((hv Level.InfoLevel).mp h1) (by decide)
    | DPanicLevel =>
      have h1 := (hall Level.InfoLevel).mpr (by decide)
      exact absurd ((hv Level.InfoLevel).mp h1) (by decide)
    | PanicLevel =>
      have h1 := (hall Level.InfoLevel).mpr (by decide)
      exact absurd ((hv Level.InfoLevel).mp h1) (by decide)
    | FatalLevel =>
      have h1 := (hall Level.InfoLevel).mpr (by decide)
      exact absurd ((hv Level.InfoLevel).mp h1) (by decide)
  · refine ⟨rfl, rfl, rfl, rfl, rfl, rfl, rfl, rfl, rfl, rfl, rfl, rfl, rfl, rfl, ?_, ?_⟩
    · intro lvl h; cases lvl <;> cases h
    · intro lvl h; cases lvl <;> cases h

/-- C2, amended, at three levels: "invalid-level" of the repository's test, which the parser
rejects, and "INFO", which it parses as info, both give the logger built for "info"; "dpanic",
which it parses as DPanic, gives a logger that enables exactly DPanic and above and so does
not enable Info. -/
theorem C2_unrecognized_level_resolution_witness :
    (∀ lvl, Level.UnmarshalText "invalid-level" ≠ .ok lvl) ∧
    NewLogger zap.Env.allOpen
        (some { Level := "invalid-level", Encoding := "console", Outputs := [], ErrOutputs := [] })
      = NewLogger zap.Env.allOpen
        (some { Level := "info", Encoding := "console", Outputs := [], ErrOutputs := [] }) ∧
    Level.UnmarshalText "INFO" = .ok Level.InfoLevel ∧
    NewLogger zap.Env.allOpen
        (some { Level := "INFO", Encoding := "console", Outputs := [], ErrOutputs := [] })
      = NewLogger zap.Env.allOpen
        (some { Level := "info", Encoding := "console", Outputs := [], ErrOutputs := [] }) ∧
    Level.UnmarshalText "dpanic" = .ok Level.DPanicLevel ∧
    (∃ l, NewLogger zap.Env.allOpen
        (some { Level := "dpanic", Encoding := "console", Outputs := [], ErrOutputs := [] })
          = .ok l ∧
      (l.Enabled Level.InfoLevel = true ↔ Level.DPanicLevel ≤ Level.InfoLevel) ∧
      l.Enabled Level.InfoLevel = false ∧
      ¬ ∀ v, (l.Enabled v = true ↔ Level.InfoLevel ≤ v)) :=
  ⟨(fun lvl h => by cases lvl <;> cases h),
    ((C2_unrecognized_level_resolution zap.Env.allOpen
      { Level := "invalid-level", Encoding := "console", Outputs := [], ErrOutputs := [] }).1
      (Or.inr (fun lvl h => by cases lvl <;> cases h))).1,
    rfl,
    ((C2_unrecognized_level_resolution zap.Env.allOpen
      { Level := "INFO", Encoding := "console", Outputs := [], ErrOutputs := [] }).1
      (Or.inl rfl)).1,
    rfl,
    ⟨_, rfl,
      (C2_unrecognized_level_resolution zap.Env.allOpen
        { Level := "dpanic", Encoding := "console", Outputs := [], ErrOutputs := [] }).2.1
        Level.DPanicLevel rfl _ rfl Level.InfoLevel,
      rfl,
      (C2_unrecognized_level_resolution zap.Env.allOpen
        { Level := "dpanic", Encoding := "console", Outputs := [], ErrOutputs := [] }).2.2.1
        Level.DPanicLevel rfl (by decide) _ rfl⟩⟩

/-- C3: for each of the names debug, info, warn, error, fatal, the logger that `NewLogger`
builds with that level enables a severity exactly when it is at least as severe as the named
one; with no sinks configured the build succeeds. -/
theorem C3_recognized_level_enables (env : zap.Env) (cfg : gologger.Config) (lvl : Level)
    (h : (cfg.Level, lvl) ∈ [("debug", Level.DebugLevel), ("info", Level.InfoLevel),
      ("warn", Level.WarnLevel), ("error", Level.ErrorLevel), ("fatal", Level.FatalLevel)]) :
    (cfg.Outputs = [] → cfg.ErrOutputs = [] → ∃ l, NewLogger env (some cfg) = .ok l) ∧
    (∀ l, NewLogger env (some cfg) = .ok l → ∀ v, (l.Enabled v = true ↔ lvl ≤ v)) := by
  refine ⟨NewLogger_default_sinks_ok env cfg, ?_⟩
  intro l hl v
  rw [NewLogger_Enabled env (some cfg) l hl, zapCfg_Level, UnmarshalText_mapping _ _ h]
  simp [Level.Enabled]

/-- C3 at the configuration of the repository's console test: level "warn" enables Warn and
disables Info. -/
theorem C3_recognized_level_enables_witness :
    ∃ l, NewLogger zap.Env.allOpen
        (some { Level := "warn", Encoding := "console", Outputs := ["stdout"],
                ErrOutputs := ["stderr"] }) = .ok l ∧
      (l.Enabled Level.WarnLevel = true ↔ Level.WarnLevel ≤ Level.WarnLevel) ∧
      (l.Enabled Level.InfoLevel = true ↔ Level.WarnLevel ≤ Level.InfoLevel) ∧
      l.Enabled Level.WarnLevel = true ∧ l.Enabled Level.InfoLevel = false :=
  ⟨_, rfl,
    (C3_recognized_level_enables zap.Env.allOpen
      { Level := "warn", Encoding := "console", Outputs := ["stdout"], ErrOutputs := ["stderr"] }
      Level.WarnLevel (by decide)).2 _ rfl Level.WarnLevel,
    (C3_recognized_level_enables zap.Env.allOpen
      { Level := "warn", Encoding := "console", Outputs := ["stdout"], ErrOutputs := ["stderr"] }
      Level.WarnLevel (by decide)).2 _ rfl Level.InfoLevel,
    rfl, rfl⟩

/-- C8: `NewLogger(nil)`, which is also what `NewDefaultLogger` calls, assembles the
development default configuration (with the coloured level encoder) and builds the logger it
returns from it: the build succeeds on every machine, the returned facade wraps the sugared
handle of the logger built from that configuration, so it has the level, the development
flag, the console encoding, the encoder settings, the absent sampling and the `stderr` sinks
of the development profile, and it enables Debug and every other severity. -/
theorem C8_nil_config_development (env : zap.Env) :
    NewLogger.zapCfg none =
      { zap.NewDevelopmentConfig with
        EncoderConfig :=
          { zap.NewDevelopmentEncoderConfig with EncodeLevel := .CapitalColorLevelEncoder } } ∧
    NewDefaultLogger env = NewLogger env none ∧
    ∃ l, NewLogger env none = .ok l ∧
      l.Enabled Level.DebugLevel = true ∧
      (∀ v, Level.DebugLevel ≤ v → l.Enabled v = true) ∧
      (∀ v, l.Enabled v = true) ∧
      (∃ log,
        zap.Config.Build env
            { zap.NewDevelopmentConfig with
              EncoderConfig :=
                { zap.NewDevelopmentEncoderConfig with
                  EncodeLevel := .CapitalColorLevelEncoder } }
            [.AddCaller, .AddCallerSkip 2] = .ok log ∧
        l = { SugaredLogger := log.Sugar }) ∧
      l.SugaredLogger.base.level = zap.NewDevelopmentConfig.Level ∧
      l.SugaredLogger.base.development = zap.NewDevelopmentConfig.Development ∧
      l.SugaredLogger.base.encoding = zap.NewDevelopmentConfig.Encoding ∧
      l.SugaredLogger.base.sampling = zap.NewDevelopmentConfig.Sampling ∧
      l.SugaredLogger.base.outputPaths = zap.NewDevelopmentConfig.OutputPaths ∧
      l.SugaredLogger.base.errorOutputPaths = zap.NewDevelopmentConfig.ErrorOutputPaths ∧
      l.SugaredLogger.base.encoderConfig =
        { zap.NewDevelopmentEncoderConfig with EncodeLevel := .CapitalColorLevelEncoder } ∧
      l = { SugaredLogger :=
            { base :=
              { level := Level.DebugLevel
                encoding := "console"
                encoderConfig :=
                  { TimeKey := "T"
                    EncodeLevel := .CapitalColorLevelEncoder
                    EncodeTime := .ISO8601TimeEncoder }
                outputPaths := ["stderr"]
                errorOutputPaths := ["stderr"]
                sampling := none
                development := true
                addCaller := true
                addStack := some Level.WarnLevel
                callerSkip := 4 } } } := by
  refine ⟨rfl, rfl, ?_⟩
  have hok : ∃ l, NewLogger env none = .ok l := by
    have hopen : (NewLogger.zapCfg none).openSinks env = none := by
      simp [NewLogger.zapCfg, zap.NewDevelopmentConfig, zap.Config.openSinks, (Open_std env).2]
    simp [NewLogger, zap.Config.Build, zapCfg_buildEncoder, hopen]
  obtain ⟨l, hl⟩ := hok
  have hE : ∀ v, l.Enabled v = true := by
    intro v
    rw [NewLogger_Enabled env none l hl]
    cases v <;> rfl
  obtain ⟨log, hb, hlog⟩ := NewLogger_ok env none l hl
  obtain ⟨-, -, hval⟩ := Build_ok env _ _ log hb
  refine ⟨l, hl, hE _, fun v _ => hE v, hE, ⟨log, hb, hlog⟩, ?_⟩
  subst hlog
  subst hval
  exact ⟨rfl, rfl, rfl, rfl, rfl, rfl, rfl, rfl⟩

/-- C8 on a machine where nothing but the standard streams opens: the default logger is
built, it is the sugared logger of the development profile writing to `stderr`, and it
enables Debug. -/
theorem C8_nil_config_development_witness :
    ∃ l, NewDefaultLogger zap.Env.noFiles = .ok l ∧ l.Enabled Level.DebugLevel = true ∧
      l.SugaredLogger.base.development = true ∧
      l.SugaredLogger.base.encoding = "console" ∧
      l.SugaredLogger.base.outputPaths = ["stderr"] ∧
      l.SugaredLogger.base.errorOutputPaths = ["stderr"] :=
  match (C8_nil_config_development zap.Env.noFiles).2.2 with
  | ⟨l, hl, hd, _, _, _, _, hdev, henc, _, hout, herr, _, _⟩ =>
    ⟨l, hl, hd, hdev, henc, hout, herr⟩

/-- C9: for a non-nil configuration, the output sinks handed to the backend are `["stdout"]`
when `Outputs` is empty and `Outputs` itself otherwise, and the error sinks are `["stderr"]`
when `ErrOutputs` is empty and `ErrOutputs` itself otherwise, each independently of the
other; a logger that is built has exactly these sinks. -/
theorem C9_sink_defaults (cfg : gologger.Config) :
    (NewLogger.zapCfg (some cfg)).OutputPaths
        = (if cfg.Outputs.length = 0 then ["stdout"] else cfg.Outputs) ∧
    (NewLogger.zapCfg (some cfg)).ErrorOutputPaths
        = (if cfg.ErrOutputs.length = 0 then ["stderr"] else cfg.ErrOutputs) ∧
    (∀ env l, NewLogger env (some cfg) = .ok l →
      l.SugaredLogger.base.outputPaths
          = (if cfg.Outputs.length = 0 then ["stdout"] else cfg.Outputs) ∧
      l.SugaredLogger.base.errorOutputPaths
          = (if cfg.ErrOutputs.length = 0 then ["stderr"] else cfg.ErrOutputs)) := by
  have hs := zapCfg_sinks cfg
  simp only [List.length_eq_zero]
  refine ⟨hs.1, hs.2, ?_⟩
  intro env l hl
  obtain ⟨log, hb, rfl⟩ := NewLogger_ok env (some cfg) l hl
  obtain ⟨-, -, rfl⟩ := Build_ok env _ _ log hb
  exact ⟨hs.1, hs.2⟩

/-- C9 at a configuration with a file as its only output and no error output: the file is
kept, the error sinks default. -/
theorem C9_sink_defaults_witness :
    ∃ l, NewLogger zap.Env.allOpen
        (some { Level := "info", Encoding := "json", Outputs := ["app.log", "stdout"],
                ErrOutputs := [] }) = .ok l ∧
      l.SugaredLogger.base.outputPaths = ["app.log", "stdout"] ∧
      l.SugaredLogger.base.errorOutputPaths = ["stderr"] :=
  ⟨_, rfl,
    (C9_sink_defaults
      { Level := "info", Encoding := "json", Outputs := ["app.log", "stdout"],
        ErrOutputs := [] }).2.2 zap.Env.allOpen _ rfl⟩

/-- The method `Init` never returns an error. -/
theorem Init_fst (env : zap.Env) (s : StandardLogStrategy) (cfg : logger.Config) :
    (s.Init env cfg).1 = none := by
  unfold StandardLogStrategy.Init
  cases cfg.StandardLogConfig with
  | none => rfl
  | some slc =>
    cases hb : (StandardLogStrategy.Init.zapConfig cfg slc).Build env [] <;> simp only [hb]

/-- C4: on a strategy that holds no logger, `Init` with a configuration whose
`StandardLogConfig` is nil returns no error and leaves the strategy without a logger, whatever
the environment and the level; afterwards `GetLogger` panics and `Sync` returns no error. -/
theorem C4_init_without_sub_config (env : zap.Env) (environment level : String) :
    (StandardLogStrategy.Init env { logger := none }
        { Environment := environment, Level := level, StandardLogConfig := none }).1 = none ∧
    (StandardLogStrategy.Init env { logger := none }
        { Environment := environment, Level := level, StandardLogConfig := none }).2
      = { logger := none } ∧
    (StandardLogStrategy.Init env { logger := none }
        { Environment := environment, Level := level, StandardLogConfig := none }).2.GetLogger
      = .error "Logger is not initialized. Call init first." ∧
    (StandardLogStrategy.Init env { logger := none }
        { Environment := environment, Level := level, StandardLogConfig := none }).2.Sync env
      = none :=
  ⟨rfl, rfl, rfl, rfl⟩

/-- C5: `Init` returns the nil error for every configuration and every prior state of the
strategy; when the build of the backend logger fails, the strategy is left exactly as it was,
so a strategy that held no logger still holds none and `GetLogger` panics. -/
theorem C5_init_swallows_build_failure (env : zap.Env) (s : StandardLogStrategy)
    (cfg : logger.Config) :
    (s.Init env cfg).1 = none ∧
    (∀ slc err, cfg.StandardLogConfig = some slc →
      (StandardLogStrategy.Init.zapConfig cfg slc).Build env [] = .error err →
      (s.Init env cfg).2 = s ∧
      (s.logger = none →
        (s.Init env cfg).2.GetLogger = .error "Logger is not initialized. Call init first.")) := by
  refine ⟨Init_fst env s cfg, ?_⟩
  intro slc err hslc hb
  have h : (s.Init env cfg).2 = s := by
    unfold StandardLogStrategy.Init
    rw [hslc]
    simp only [hb]
  refine ⟨h, ?_⟩
  intro hnone
  rw [h]
  unfold StandardLogStrategy.GetLogger
  rw [hnone]

/-- C5 at the configuration of the repository's example, on a machine that refuses to open
the log file: the build fails, `Init` returns no error, the strategy still holds no logger
and `GetLogger` panics. -/
theorem C5_init_swallows_build_failure_witness :
    (∃ err, (StandardLogStrategy.Init.zapConfig exampleConfig
        { OutputPaths := ["20241223.log"], ErrorOutputPaths := ["stderr"] }).Build
          zap.Env.noFiles [] = .error err) ∧
    (StandardLogStrategy.Init zap.Env.noFiles { logger := none } exampleConfig).1 = none ∧
    (StandardLogStrategy.Init zap.Env.noFiles { logger := none } exampleConfig).2
      = { logger := none } ∧
    (StandardLogStrategy.Init zap.Env.noFiles { logger := none } exampleConfig).2.GetLogger
      = .error "Logger is not initialized. Call init first." :=
  ⟨⟨_, rfl⟩,
    (C5_init_swallows_build_failure zap.Env.noFiles { logger := none } exampleConfig).1,
    ((C5_init_swallows_build_failure zap.Env.noFiles { logger := none } exampleConfig).2
      _ _ rfl rfl).1,
    ((C5_init_swallows_build_failure zap.Env.noFiles { logger := none } exampleConfig).2
      _ _ rfl rfl).2 rfl⟩

/-- C6: with a non-nil `StandardLogConfig`, `Init` builds the backend from the production
profile exactly when `Environment` is "production" and from the development profile for every
other string, with the level replaced by `getLogLevel(Level)` and both sink lists replaced by
those of the sub-configuration as they are, empty or not; a logger that is built carries that
level and those sinks. -/
theorem C6_init_backend_config (env : zap.Env) (s : StandardLogStrategy) (cfg : logger.Config)
    (slc : StandardLogConfig) (h : cfg.StandardLogConfig = some slc) :
    s.Init env cfg =
      (none,
        match (StandardLogStrategy.Init.zapConfig cfg slc).Build env [] with
        | .ok log => { logger := some log.Sugar }
        | .error _ => s) ∧
    (StandardLogStrategy.Init.zapConfig cfg slc =
        { zap.NewProductionConfig with
          Level := getLogLevel cfg.Level
          OutputPaths := slc.OutputPaths
          ErrorOutputPaths := slc.ErrorOutputPaths } ↔ cfg.Environment = "production") ∧
    (StandardLogStrategy.Init.zapConfig cfg slc =
        { zap.NewDevelopmentConfig with
          Level := getLogLevel cfg.Level
          OutputPaths := slc.OutputPaths
          ErrorOutputPaths := slc.ErrorOutputPaths } ↔ cfg.Environment ≠ "production") ∧
    (StandardLogStrategy.Init.zapConfig cfg slc).Level = getLogLevel cfg.Level ∧
    (StandardLogStrategy.Init.zapConfig cfg slc).OutputPaths = slc.OutputPaths ∧
    (StandardLogStrategy.Init.zapConfig cfg slc).ErrorOutputPaths = slc.ErrorOutputPaths ∧
    (∀ log, (StandardLogStrategy.Init.zapConfig cfg slc).Build env [] = .ok log →
      (s.Init env cfg).2.logger = some log.Sugar ∧
      log.level = getLogLevel cfg.Level ∧
      log.outputPaths = slc.OutputPaths ∧
      log.errorOutputPaths = slc.ErrorOutputPaths ∧
      (log.development = false ↔ cfg.Environment = "production")) := by
  have hInit : s.Init env cfg =
      (none,
        match (StandardLogStrategy.Init.zapConfig cfg slc).Build env [] with
        | .ok log => { logger := some log.Sugar }
        | .error _ => s) := by
    unfold StandardLogStrategy.Init
    rw [h]
    cases hb : (StandardLogStrategy.Init.zapConfig cfg slc).Build env [] <;> simp only [hb]
  refine ⟨hInit, ?_, ?_, ?_, ?_, ?_, ?_⟩
  · by_cases he : cfg.Environment = "production"
    · simp [StandardLogStrategy.Init.zapConfig, he]
    · simp only [StandardLogStrategy.Init.zapConfig, he, if_false, iff_false]
      intro hc
      have := congrArg zap.Config.Development hc
      simp [zap.NewDevelopmentConfig, zap.NewProductionConfig] at this
  · by_cases he : cfg.Environment = "production"
    · simp only [StandardLogStrategy.Init.zapConfig, he, if_true, ne_eq, not_true, iff_false]
      intro hc
      have := congrArg zap.Config.Development hc
      simp [zap.NewDevelopmentConfig, zap.NewProductionConfig] at this
    · simp [StandardLogStrategy.Init.zapConfig, he]
  · rfl
  · rfl
  · rfl
  · intro log hb
    obtain ⟨-, -, rfl⟩ := Build_ok env _ _ log hb
    refine ⟨?_, rfl, rfl, rfl, ?_⟩
    · rw [hInit, hb]
    · by_cases he : cfg.Environment = "production" <;>
        simp [StandardLogStrategy.Init.zapConfig, he, LoggerOption.apply,
          zap.NewDevelopmentConfig, zap.NewProductionConfig]

/-- C6 at the configuration of the repository's example, the environment "development": the
backend is built from the development profile with level info, the log file as its only
output and `stderr` for errors. -/
theorem C6_init_backend_config_witness :
    exampleConfig.StandardLogConfig
      = some { OutputPaths := ["20241223.log"], ErrorOutputPaths := ["stderr"] } ∧
    (StandardLogStrategy.Init zap.Env.allOpen { logger := none } exampleConfig).2.logger
      = some (zap.Logger.Sugar
          { level := Level.InfoLevel
            encoding := "console"
            encoderConfig := zap.NewDevelopmentEncoderConfig
            outputPaths := ["20241223.log"]
            errorOutputPaths := ["stderr"]
            sampling := none
            development := true
            addCaller := true
            addStack := some Level.WarnLevel
            callerSkip := 0 }) :=
  ⟨rfl,
    ((C6_init_backend_config zap.Env.allOpen { logger := none } exampleConfig
      { OutputPaths := ["20241223.log"], ErrorOutputPaths := ["stderr"] } rfl).2.2.2.2.2.2
        _ rfl).1⟩

/-- C7: a `LogContext` with no strategy returns nil from `Init` and from `Sync`, is left as it
was, and panics in `GetLogger`; after `SetStrategy(s)` with a non-nil `s`, whatever was set
before, `Init`, `GetLogger` and `Sync` return what the same method of `s` returns, and the
context goes on holding `s`. -/
theorem C7_context_forwards (lc : LogContext) (s0 s : LogStrategy) (cfg : logger.Config) :
    (lc.strategy = none →
      lc.Init cfg = (none, lc) ∧ lc.Sync = (none, lc) ∧
      lc.GetLogger = (.error "Logger strategy is not set", lc)) ∧
    ((lc.SetStrategy (some s)).Init cfg).1 = (s.Init cfg).1 ∧
    ((lc.SetStrategy (some s)).GetLogger).1 = (s.GetLogger).1 ∧
    ((lc.SetStrategy (some s)).Sync).1 = (s.Sync).1 ∧
    ((lc.SetStrategy (some s)).Init cfg).2.strategy = some (s.Init cfg).2 ∧
    ((lc.SetStrategy (some s)).GetLogger).2.strategy = some (s.GetLogger).2 ∧
    ((lc.SetStrategy (some s)).Sync).2.strategy = some (s.Sync).2 ∧
    (((lc.SetStrategy (some s0)).SetStrategy (some s)).Init cfg).1 = (s.Init cfg).1 ∧
    (((lc.SetStrategy (some s0)).SetStrategy (some s)).GetLogger).1 = (s.GetLogger).1 ∧
    (((lc.SetStrategy (some s0)).SetStrategy (some s)).Sync).1 = (s.Sync).1 := by
  refine ⟨?_, rfl, rfl, rfl, rfl, rfl, rfl, rfl, rfl, rfl⟩
  intro h
  obtain ⟨st⟩ := lc
  simp only at h
  subst h
  exact ⟨rfl, rfl, rfl⟩

/-- C7 at the empty context and at a context whose strategy is a `StandardLogStrategy`
initialised from the repository's example configuration. -/
theorem C7_context_forwards_witness :
    (LogContext.Init { strategy := none } exampleConfig).1 = none ∧
    (LogContext.Sync { strategy := none }).1 = none ∧
    (LogContext.GetLogger { strategy := none }).1 = .error "Logger strategy is not set" ∧
    ((LogContext.SetStrategy { strategy := none }
        (some (StandardLogStrategy.toLogStrategy zap.Env.allOpen { logger := none }))).GetLogger).1
      = .error "Logger is not initialized. Call init first." :=
  have h := C7_context_forwards { strategy := none }
    (StandardLogStrategy.toLogStrategy zap.Env.allOpen { logger := none })
    (StandardLogStrategy.toLogStrategy zap.Env.allOpen { logger := none }) exampleConfig
  ⟨congrArg Prod.fst (h.1 rfl).1, congrArg Prod.fst (h.1 rfl).2.1,
    congrArg Prod.fst (h.1 rfl).2.2, h.2.2.1⟩

/-- The caller that a facade logger built by `NewLogger` reports: with `site` the frame of
the call of the facade method and `parent` the frame that called the function containing
it, a record that is written is annotated with `parent`. -/
theorem NewLogger_Info_caller (env : zap.Env) (cfg : Option gologger.Config) (l : zapLoggerImpl)
    (h : NewLogger env cfg = .ok l) (site parent : Frame) (rest : List Frame)
    (hen : l.Enabled Level.InfoLevel = true) :
    l.Info (site :: parent :: rest) = some { Level := Level.InfoLevel, Caller := some parent } := by
  obtain ⟨log, hb, rfl⟩ := NewLogger_ok env cfg l h
  obtain ⟨-, -, rfl⟩ := Build_ok env _ _ log hb
  have hen2 : (NewLogger.zapCfg cfg).Level.Enabled Level.InfoLevel = true := hen
  simp [zapLoggerImpl.Info, zap.SugaredLogger.Info, zap.SugaredLogger.log, zap.Logger.Check,
    zap.Logger.check, zap.Logger.Enabled, zap.Logger.Sugar, LoggerOption.apply,
    callerSkipOffset, hen2]

/-- C10, evaluated: `main.handle` calls `Info` at line 12 and was itself called by `main.main`
at line 30.  The record of the logger built by `NewLogger` names `main.main`, the caller of
the function that logged, and not the call site; the same logger built with a caller skip of
1 names the call site. -/
theorem C10_caller_skip_two_reports_parent :
    (∃ l, NewLogger zap.Env.allOpen none = .ok l ∧
      l.Info exampleStack
        = some { Level := Level.InfoLevel, Caller := some "main.main (main.go:30)" }) ∧
    (∃ log, (NewLogger.zapCfg none).Build zap.Env.allOpen [.AddCaller, .AddCallerSkip 1] = .ok log ∧
      zapLoggerImpl.Info { SugaredLogger := log.Sugar } exampleStack
        = some { Level := Level.InfoLevel, Caller := some "main.handle (main.go:12)" }) :=
  ⟨⟨_, rfl, rfl⟩, ⟨_, rfl, rfl⟩⟩

end Theorems
